import Mathlib

/-!
Verification of the NanoClaw agent-runner core: the driver abstraction
(claude-driver.ts, opencode-driver.ts), the query-loop orchestrator
(index.ts) and the filesystem-mediated live-message channel.

Machine integers, processes and timers are modelled by explicit sequential
traces: each driver invocation is a pure function of the externally
observable inputs (spawn outcome, SDK message sequence, poll observations),
and the orchestrator loop is a pure function from a script of invocation
results and wait results to the trace of events it performs.
-/

namespace NanoClaw

/-- ContainerInput, from driver.ts: the one-shot initialization document. -/
structure ContainerInput where
  prompt : String
  sessionId : Option String := none
  groupFolder : String
  chatJid : String
  isMain : Bool
  isScheduledTask : Option Bool := none
  assistantName : Option String := none
  agentType : Option String := none
  secrets : List (String × String) := []
deriving DecidableEq

/-- QueryResult, from driver.ts: the outcome of one driver invocation. -/
structure QueryResult where
  newSessionId : Option String := none
  lastAssistantUuid : Option String := none
  closedDuringQuery : Bool
deriving DecidableEq

/-- An outbound side-channel record, as passed to writeOutput: status is
the literal string success or error; omitted fields are none. -/
structure OutputRecord where
  status : String
  result : Option String := none
  newSessionId : Option String := none
  error : Option String := none
deriving DecidableEq

/-! ## External-process backend (OpenCodeDriver.run, opencode-driver.ts) -/

/-- The externally observable outcome of the spawned subprocess: either the
process ran and closed with an exit code and fully captured stdout and
stderr, or spawning failed with an error message. -/
inductive SpawnOutcome where
  | exited (code : Int) (stdout : String) (stderr : String)
  | spawnError (msg : String)
deriving DecidableEq

/-- OpenCodeDriver.run, from opencode-driver.ts: on close, writes one record
with status success iff the exit code is zero, result equal to the captured
stdout when non-empty and null otherwise, and error equal to the captured
stderr on a non-zero code; the session id is echoed back unchanged.  On a
spawn error, writes one record with status error, null result and the
error message, and resolves with closedDuringQuery false.  Returns the list
of records written by the invocation together with the QueryResult it
resolves with. -/
def openCodeRun (sessionId : Option String) (outcome : SpawnOutcome) :
    List OutputRecord × QueryResult :=
  match outcome with
  | .exited code stdout stderr =>
      ([{ status := if code = 0 then "success" else "error",
          result := if stdout = "" then none else some stdout,
          newSessionId := sessionId,
          error := if code ≠ 0 then some stderr else none }],
       { newSessionId := sessionId, closedDuringQuery := false })
  | .spawnError msg =>
      ([{ status := "error", result := none, error := some msg }],
       { closedDuringQuery := false })

/-! ## In-process streaming backend (ClaudeDriver.run, claude-driver.ts) -/

/-- One execution of the pollIpcDuringQuery callback: it either observed the
close sentinel via shouldClose, or drained a list of pending inbox
messages. -/
inductive PollTick where
  | sentinel
  | msgs (texts : List String)
deriving DecidableEq

/-- The mutable state of the poll callback in ClaudeDriver.run: whether
polling is still scheduled, whether the close sentinel was consumed during
the query, and the texts pushed into the message stream so far. -/
structure PollState where
  ipcPolling : Bool
  closedDuringQuery : Bool
  pushedTexts : List String
deriving DecidableEq

/-- One step of pollIpcDuringQuery, from claude-driver.ts: when polling has
been stopped the tick does nothing; on a sentinel observation it records
closedDuringQuery, ends the stream and stops polling; otherwise every
drained message is pushed into the stream. -/
def pollStep (st : PollState) (t : PollTick) : PollState :=
  if st.ipcPolling then
    match t with
    | .sentinel =>
        { st with closedDuringQuery := true, ipcPolling := false }
    | .msgs texts =>
        { st with pushedTexts := st.pushedTexts ++ texts }
  else st

/-- The poll state after a sequence of poll executions, starting with
polling enabled and the sentinel not yet seen. -/
def runPoll (ticks : List PollTick) : PollState :=
  ticks.foldl pollStep { ipcPolling := true, closedDuringQuery := false, pushedTexts := [] }

/-- An SDK message observed by the query loop of ClaudeDriver.run: a
system/init message carrying the session id, an assistant message carrying
its uuid, a result message carrying optional result text, or anything
else. -/
inductive SdkMessage where
  | init (sessionId : String)
  | assistant (uuid : String)
  | result (text : Option String)
  | other
deriving DecidableEq

/-- The state accumulated over the SDK message sequence in
ClaudeDriver.run. -/
structure SdkState where
  newSessionId : Option String
  lastAssistantUuid : Option String
  outputs : List OutputRecord
deriving DecidableEq

/-- Processing of one SDK message in ClaudeDriver.run: an init message sets
newSessionId, an assistant message sets lastAssistantUuid, and every result
message immediately writes a success record whose result is the result text
when non-empty and null otherwise. -/
def sdkStep (st : SdkState) (m : SdkMessage) : SdkState :=
  match m with
  | .init sid => { st with newSessionId := some sid }
  | .assistant uuid => { st with lastAssistantUuid := some uuid }
  | .result t =>
      { st with outputs := st.outputs ++
          [{ status := "success",
             result := match t with
               | some s => if s = "" then none else some s
               | none => none,
             newSessionId := st.newSessionId }] }
  | .other => st

/-- ClaudeDriver.run, from claude-driver.ts, as a function of the poll
executions that occurred during the invocation and the SDK messages the
query yielded: returns the records written during the run together with the
final QueryResult, whose closedDuringQuery flag is exactly the one set by
the poll callback. -/
def claudeRun (ticks : List PollTick) (msgs : List SdkMessage) :
    List OutputRecord × QueryResult :=
  let poll := runPoll ticks
  let st := msgs.foldl sdkStep { newSessionId := none, lastAssistantUuid := none, outputs := [] }
  (st.outputs,
   { newSessionId := st.newSessionId,
     lastAssistantUuid := st.lastAssistantUuid,
     closedDuringQuery := poll.closedDuringQuery })

/-! ## Outbound-command sanitation hook (createSanitizeBashHook) -/

/-- SECRET_ENV_VARS, from claude-driver.ts. -/
def SECRET_ENV_VARS : List String := ["ANTHROPIC_API_KEY", "CLAUDE_CODE_OAUTH_TOKEN"]

/-- The prefix prepended by the sanitation hook, from claude-driver.ts. -/
def unsetPrefix : String := "unset " ++ String.intercalate " " SECRET_ENV_VARS ++ " 2>/dev/null; "

/-- createSanitizeBashHook, from claude-driver.ts: given the command field
of the tool input (none when the field is missing), returns the rewritten
command, or none when no rewrite happens because the command is missing or
empty (falsy). -/
def sanitizeBashCommand (command : Option String) : Option String :=
  match command with
  | none => none
  | some cmd => if cmd = "" then none else some (unsetPrefix ++ cmd)

/-! ## MessageStream (claude-driver.ts)

The single-producer/single-consumer queue feeding the streaming backend,
modelled as a small-step system over its state.  The producer operations
are push (enqueue a message, whatever the done flag) and ending the stream
(set the done flag); the consumer operation takes the front of the queue
when it is non-empty and otherwise either terminates (done set) or waits
(no state change either way).  Ghost fields record all pushed and all
yielded messages in order. -/

/-- The state of a MessageStream together with ghost history fields:
pushed records every pushed message in push order, yielded every message
the async iterator has yielded in yield order. -/
structure StreamState where
  queue : List String
  done : Bool
  pushed : List String
  yielded : List String
deriving DecidableEq

/-- The initial MessageStream state: empty queue, not done. -/
def streamInit : StreamState :=
  { queue := [], done := false, pushed := [], yielded := [] }

/-- One operation on a MessageStream: a producer push, the producer ending
the stream, or the consumer taking one step of the async iterator. -/
inductive StreamOp where
  | push (text : String)
  | close
  | consume
deriving DecidableEq

/-- The effect of one operation, from the MessageStream class: push appends
to the queue unconditionally; ending the stream sets done; a consumer step
shifts the front of a non-empty queue and yields it, and changes nothing on
an empty queue (the iterator then either waits or returns). -/
def streamStep (st : StreamState) (op : StreamOp) : StreamState :=
  match op with
  | .push t => { st with queue := st.queue ++ [t], pushed := st.pushed ++ [t] }
  | .close => { st with done := true }
  | .consume =>
      match st.queue with
      | [] => st
      | t :: rest => { st with queue := rest, yielded := st.yielded ++ [t] }

/-- The MessageStream state after an arbitrary interleaving of producer and
consumer operations, starting from the initial state. -/
def runStream (ops : List StreamOp) : StreamState :=
  ops.foldl streamStep streamInit

/-! ## Live-Message Channel (utils, not present under src/) -/

/-- The observable state of the IPC inbox directory: whether the close
sentinel file exists, and the pending message files in delivery order. -/
structure Fs where
  sentinel : Bool
  inbox : List String
deriving DecidableEq

/-- Modelled from the spec: `shouldClose` from the missing utils module is
the non-blocking sentinel check, true exactly when the sentinel file
exists. -/
def shouldClose (fs : Fs) : Bool := fs.sentinel

/-- Modelled from the spec: `drainIpcInput` from the missing utils module
reads and removes all currently-present message files in delivery order and
never blocks, returning the empty sequence when none exist. -/
def drainIpcInput (fs : Fs) : List String × Fs :=
  (fs.inbox, { fs with inbox := [] })

/-- The result of a completed wait on the channel: the earliest pending
message, or the terminate signal. -/
inductive WaitResult where
  | message (text : String)
  | close
deriving DecidableEq

/-- Modelled from the spec: one poll of `waitForIpcMessage` from the
missing utils module.  When a message file exists the earliest one is
drained and returned; otherwise, when the sentinel exists the terminate
signal is returned; otherwise the wait has not completed yet (none) and the
poll repeats later. -/
def waitOnce (fs : Fs) : Option (WaitResult × Fs) :=
  match fs.inbox with
  | t :: rest => some (.message t, { fs with inbox := rest })
  | [] => if fs.sentinel then some (.close, fs) else none

/-- The startup cleanup in main, from index.ts: before the first wait, the
stale close sentinel left by a previous container run is unlinked. -/
def clearStaleSentinel (fs : Fs) : Fs := { fs with sentinel := false }

/-! ## Query-loop orchestrator (main, index.ts) -/

/-- The scheduled-task banner prepended in main, from index.ts. -/
def scheduledBanner : String :=
  "[SCHEDULED TASK - The following message was sent automatically and is not coming directly from the user or group.]"

/-- The initial prompt built by main, from index.ts: the input prompt,
prefixed by the scheduled-task banner and a blank line when the
isScheduledTask flag is truthy, then joined with the drained pending
messages by newlines when any are pending. -/
def buildInitialPrompt (input : ContainerInput) (pending : List String) : String :=
  let p := if input.isScheduledTask = some true
    then scheduledBanner ++ "\n\n" ++ input.prompt
    else input.prompt
  if pending.length > 0 then p ++ "\n" ++ String.intercalate "\n" pending else p

/-- The session-continuity update in main, from index.ts: the session id is
replaced by the newSessionId of the just-completed QueryResult only when
that field is present and truthy (a present empty string is falsy in the
source and leaves the session id unchanged). -/
def updSession (s : Option String) (qr : QueryResult) : Option String :=
  match qr.newSessionId with
  | some v => if v = "" then s else some v
  | none => s

/-- The resume-marker update in main, from index.ts, with the same
truthiness rule as the session id. -/
def updResume (r : Option String) (qr : QueryResult) : Option String :=
  match qr.lastAssistantUuid with
  | some v => if v = "" then r else some v
  | none => r

/-- One round of the query loop seen from outside: the QueryResult the
driver invocation resolved with, and the result of the following wait in
case the loop reaches it. -/
structure Round where
  qr : QueryResult
  w : WaitResult
deriving DecidableEq

/-- An externally visible event of the query loop: a driver invocation with
its prompt, session id and resume marker arguments; an outbound record
written by the loop itself; a completed wait on the channel; or the loop
exiting. -/
inductive Event where
  | invoke (prompt : String) (sessionId : Option String) (resumeAt : Option String)
  | output (rec : OutputRecord)
  | wait (res : WaitResult)
  | exited
deriving DecidableEq

/-- The session-update record emitted by main after a normal invocation,
from index.ts. -/
def sessionUpdate (s : Option String) : OutputRecord :=
  { status := "success", result := none, newSessionId := s }

/-- The query loop of main, from index.ts, as the trace of events it
performs when the successive driver invocations and waits behave as given
by the script: each round invokes the driver, updates sessionId and
resumeAt from the QueryResult, exits when closedDuringQuery is set, and
otherwise emits a session-update record, waits, exits on the terminate
signal, and continues with the received message as the next prompt. -/
def runLoop (s r : Option String) (p : String) : List Round → List Event
  | [] => []
  | round :: rest =>
      let s2 := updSession s round.qr
      let r2 := updResume r round.qr
      if round.qr.closedDuringQuery then
        [.invoke p s r, .exited]
      else
        .invoke p s r :: .output (sessionUpdate s2) :: .wait round.w ::
          match round.w with
          | .close => [.exited]
          | .message t => runLoop s2 r2 t rest

/-- The arguments of the driver invocations of a trace, in order. -/
def invokeArgs : List Event → List (String × Option String × Option String)
  | [] => []
  | .invoke p s r :: rest => (p, s, r) :: invokeArgs rest
  | _ :: rest => invokeArgs rest

/-! ## Initialization phase (main, index.ts lines 25-38) -/

/-- The outcome of parsing the initialization document read from stdin. -/
inductive ParseResult where
  | ok (input : ContainerInput)
  | parseError (msg : String)
deriving DecidableEq

/-- The observable effects of the initialization phase of main. -/
structure InitEffects where
  tmpFileDeleted : Bool
  outputs : List OutputRecord
  exitedNonZero : Bool
deriving DecidableEq

/-- The initialization phase of main, from index.ts: on a successful parse
the temp input file is unlinked and the run proceeds; when parsing throws,
the catch block writes one error record and exits non-zero, and the unlink
that follows the parse is never reached. -/
def mainInit (parsed : ParseResult) : InitEffects :=
  match parsed with
  | .ok _ =>
      { tmpFileDeleted := true, outputs := [], exitedNonZero := false }
  | .parseError msg =>
      { tmpFileDeleted := false,
        outputs := [{ status := "error", result := none,
                      error := some ("Failed to parse input: " ++ msg) }],
        exitedNonZero := true }

/-! ## Helper lemmas -/

/-- Appending on the left distributes over the accumulator of
String.intercalate.go. -/
theorem intercalate_go_append (s : String) (as : List String) :
    ∀ acc₁ acc₂ : String,
      String.intercalate.go (acc₁ ++ acc₂) s as = acc₁ ++ String.intercalate.go acc₂ s as := by
  induction as with
  | nil => intro acc₁ acc₂; rfl
  | cons a as ih =>
      intro acc₁ acc₂
      rw [String.intercalate.go, String.intercalate.go,
        String.append_assoc, String.append_assoc, ih acc₁ (acc₂ ++ (s ++ a)),
        ← String.append_assoc acc₂ s a]

/-- String.intercalate on a two-or-more element list peels off the head. -/
theorem intercalate_cons_cons (s p a : String) (l : List String) :
    String.intercalate s (p :: a :: l) = p ++ s ++ String.intercalate s (a :: l) := by
  rw [String.intercalate, String.intercalate, String.intercalate.go]
  exact intercalate_go_append s l (p ++ s) a

/-- String.intercalate on a singleton is the element itself. -/
theorem intercalate_singleton (s a : String) : String.intercalate s [a] = a := rfl

/-- The initial prompt built by main is the newline join of the possibly
banner-prefixed input prompt with the pending messages. -/
theorem buildInitialPrompt_eq (input : ContainerInput) (pending : List String) :
    buildInitialPrompt input pending =
      String.intercalate "\n"
        ((if input.isScheduledTask = some true
          then scheduledBanner ++ "\n\n" ++ input.prompt
          else input.prompt) :: pending) := by
  unfold buildInitialPrompt
  cases pending with
  | nil => simp [intercalate_singleton]
  | cons a l => simp [intercalate_cons_cons]

/-! ## Claims -/

/-- C1, corrected: the claim that a non-zero exit of the external-process
backend yields a record whose result text is null fails: the source writes
`result: stdout || null`, so a non-zero exit with non-empty captured stdout
carries that stdout as the result text.  Concretely, exit code 1 with
stdout "partial output" and stderr "boom" produces a record whose result is
some "partial output", not none. -/
theorem c1_counterexample :
    (openCodeRun (some "s1") (.exited 1 "partial output" "boom")).1 =
      [{ status := "error", result := some "partial output",
         newSessionId := some "s1", error := some "boom" }] ∧
    ¬ ∀ rec ∈ (openCodeRun (some "s1") (.exited 1 "partial output" "boom")).1,
        rec.result = none := by decide

/-- C1, amended: for every invocation of the external-process backend whose
spawned process exits with a non-zero exit code, the single outbound record
written before the invocation resolves has status error, its error text
equals the full captured standard-error stream, and its result text is the
full captured standard-output stream when that is non-empty and null
otherwise. -/
theorem c1_nonzero_exit_error_record (sessionId : Option String) (code : Int)
    (stdout stderr : String) (h : code ≠ 0) :
    (openCodeRun sessionId (.exited code stdout stderr)).1 =
      [{ status := "error",
         result := if stdout = "" then none else some stdout,
         newSessionId := sessionId,
         error := some stderr }] := by
  simp [openCodeRun, h]

/-- Witness for C1 at exit code 2, stdout "out", stderr "err". -/
theorem c1_nonzero_exit_error_record_witness :
    (openCodeRun none (.exited 2 "out" "err")).1 =
      [{ status := "error",
         result := if "out" = "" then none else some "out",
         newSessionId := none,
         error := some "err" }] :=
  c1_nonzero_exit_error_record none 2 "out" "err" (by decide)

/-- C2, confirmed: for every sequence of pending messages present in the
inbox before the first invocation, the first prompt passed to the driver
equals the initial prompt from the initialization document joined with
those messages in arrival order by newlines, so each message stands on its
own line and none is dropped or duplicated.  The hypothesis restricts to
initialization documents without the scheduled-task flag; when that flag is
set a fixed banner is additionally prefixed, which is the subject of
C10. -/
theorem c2_first_prompt_concatenates_pending
    (input : ContainerInput) (pending : List String) (s r : Option String)
    (round : Round) (rest : List Round)
    (h : input.isScheduledTask ≠ some true) :
    buildInitialPrompt input pending = String.intercalate "\n" (input.prompt :: pending) ∧
    (runLoop s r (buildInitialPrompt input pending) (round :: rest)).head? =
      some (.invoke (String.intercalate "\n" (input.prompt :: pending)) s r) := by
  have hb : buildInitialPrompt input pending
      = String.intercalate "\n" (input.prompt :: pending) := by
    rw [buildInitialPrompt_eq, if_neg h]
  refine ⟨hb, ?_⟩
  rw [hb]
  cases hc : round.qr.closedDuringQuery <;> simp [runLoop, hc]

/-- Witness for C2 at a concrete input with two pending messages. -/
theorem c2_first_prompt_concatenates_pending_witness :
    buildInitialPrompt
        { prompt := "hi", groupFolder := "g", chatJid := "j", isMain := false }
        ["m1", "m2"]
      = String.intercalate "\n" ["hi", "m1", "m2"] ∧
    (runLoop none none
        (buildInitialPrompt
          { prompt := "hi", groupFolder := "g", chatJid := "j", isMain := false }
          ["m1", "m2"])
        [⟨{ closedDuringQuery := false }, .close⟩]).head? =
      some (.invoke (String.intercalate "\n" ["hi", "m1", "m2"]) none none) :=
  c2_first_prompt_concatenates_pending
    { prompt := "hi", groupFolder := "g", chatJid := "j", isMain := false }
    ["m1", "m2"] none none ⟨{ closedDuringQuery := false }, .close⟩ [] (by decide)

/-- C7, corrected: the claim that the transient initialization file is
deleted even when parsing fails does not hold: the unlink follows the
successful JSON parse, and the catch branch reports the error and exits
without reaching it.  Concretely, a malformed document leaves the temp file
in place while the process exits non-zero. -/
theorem c7_counterexample :
    (mainInit (.parseError "Unexpected token")).tmpFileDeleted = false ∧
    (mainInit (.parseError "Unexpected token")).exitedNonZero = true := by decide

/-- C7, amended: on every startup whose initialization document parses
successfully, the transient input file is deleted immediately after
parsing; on a startup where parsing fails, the process writes exactly one
error record and exits non-zero without deleting the file. -/
theorem c7_tmp_file_deleted_after_parse (input : ContainerInput) (msg : String) :
    (mainInit (.ok input)).tmpFileDeleted = true ∧
    mainInit (.parseError msg) =
      { tmpFileDeleted := false,
        outputs := [{ status := "error", result := none,
                      error := some ("Failed to parse input: " ++ msg) }],
        exitedNonZero := true } ∧
    (mainInit (.parseError msg)).outputs.length = 1 :=
  ⟨rfl, rfl, rfl⟩

/-- C8, confirmed: for every non-empty shell command, the sanitation hook
rewrites it to first unset the two secret-bearing environment variables
ANTHROPIC_API_KEY and CLAUDE_CODE_OAUTH_TOKEN and then run the original
command text unchanged, as the verbatim suffix after the fixed unset
prefix. -/
theorem c8_sanitize_bash_hook (cmd : String) (h : cmd ≠ "") :
    sanitizeBashCommand (some cmd) =
      some ("unset ANTHROPIC_API_KEY CLAUDE_CODE_OAUTH_TOKEN 2>/dev/null; " ++ cmd) := by
  have hp : unsetPrefix = "unset ANTHROPIC_API_KEY CLAUDE_CODE_OAUTH_TOKEN 2>/dev/null; " := by
    decide
  simp [sanitizeBashCommand, h, hp]

/-- Witness for C8 at the concrete command "echo hi". -/
theorem c8_sanitize_bash_hook_witness :
    sanitizeBashCommand (some "echo hi") =
      some ("unset ANTHROPIC_API_KEY CLAUDE_CODE_OAUTH_TOKEN 2>/dev/null; " ++ "echo hi") :=
  c8_sanitize_bash_hook "echo hi" (by decide)

/-- C10, confirmed: when the scheduled-task flag of the initialization
document is truthy, the first prompt is the initial prompt prefixed with
the fixed scheduled-task banner and a blank line, and the prefix is applied
before the pending inbox messages are appended; when the flag is absent or
false, no prefix is added. -/
theorem c10_scheduled_banner_prepend (input : ContainerInput) (pending : List String) :
    (input.isScheduledTask = some true →
      buildInitialPrompt input pending =
        String.intercalate "\n" ((scheduledBanner ++ "\n\n" ++ input.prompt) :: pending)) ∧
    (input.isScheduledTask ≠ some true →
      buildInitialPrompt input pending = String.intercalate "\n" (input.prompt :: pending)) := by
  constructor
  · intro h; rw [buildInitialPrompt_eq, if_pos h]
  · intro h; rw [buildInitialPrompt_eq, if_neg h]

/-- A poll step never clears the closedDuringQuery flag, and a poll state
with polling stopped must already have consumed the sentinel when the
invariant holds. -/
theorem foldl_pollStep_closed (ticks : List PollTick) :
    ∀ st : PollState,
      (st.ipcPolling = false → st.closedDuringQuery = true) →
      (PollTick.sentinel ∈ ticks ∨ st.closedDuringQuery = true) →
      (ticks.foldl pollStep st).closedDuringQuery = true := by
  induction ticks with
  | nil =>
      intro st _ hmem
      rcases hmem with hmem | hclosed
      · simp at hmem
      · simpa using hclosed
  | cons t ts ih =>
      intro st hinv hmem
      rw [List.foldl_cons]
      apply ih (pollStep st t)
      · intro hp
        unfold pollStep at hp ⊢
        cases hpoll : st.ipcPolling with
        | false =>
            simp [hpoll] at hp ⊢
            exact hinv hpoll
        | true =>
            cases t with
            | sentinel => simp [hpoll]
            | msgs texts => simp [hpoll] at hp
      · rcases hmem with hmem | hclosed
        · rcases List.mem_cons.mp hmem with ht | hts
          · right
            unfold pollStep
            cases hpoll : st.ipcPolling with
            | false => simpa [hpoll] using hinv hpoll
            | true => simp [← ht, hpoll]
          · left; exact hts
        · right
          unfold pollStep
          cases hpoll : st.ipcPolling with
          | false => simpa using hclosed
          | true => cases t <;> simp [hpoll, hclosed]

/-- When some poll execution during a streaming invocation observes the
close sentinel, the final poll state records it. -/
theorem runPoll_closed (ticks : List PollTick) (h : PollTick.sentinel ∈ ticks) :
    (runPoll ticks).closedDuringQuery = true := by
  unfold runPoll
  exact foldl_pollStep_closed ticks _ (by intro hp; simp at hp) (Or.inl h)

/-- C3, confirmed: for every streaming-backend invocation during which the
terminate sentinel becomes visible to the poll callback, the returned
QueryResult has closedDuringQuery true, and the orchestrator then goes
straight from Running to Terminated: the trace of that round is the
invocation followed by loop exit, with no further wait on the channel and
no session-update record after the invocation.  Sentinel visibility is
modelled as some executed poll tick observing the sentinel, which is the
only way the source can learn of it. -/
theorem c3_sentinel_closes_query (ticks : List PollTick) (msgs : List SdkMessage)
    (s r : Option String) (p : String) (w : WaitResult) (rest : List Round)
    (h : PollTick.sentinel ∈ ticks) :
    (claudeRun ticks msgs).2.closedDuringQuery = true ∧
    runLoop s r p (⟨(claudeRun ticks msgs).2, w⟩ :: rest) =
      [.invoke p s r, .exited] := by
  have hclosed : (claudeRun ticks msgs).2.closedDuringQuery = true := by
    simp [claudeRun, runPoll_closed ticks h]
  exact ⟨hclosed, by simp [runLoop, hclosed]⟩

/-- Witness for C3 at a single sentinel poll tick and an empty SDK message
sequence. -/
theorem c3_sentinel_closes_query_witness :
    (claudeRun [.sentinel] []).2.closedDuringQuery = true ∧
    runLoop (some "s1") none "p" [⟨(claudeRun [.sentinel] []).2, .close⟩] =
      [.invoke "p" (some "s1") none, .exited] :=
  c3_sentinel_closes_query [.sentinel] [] (some "s1") none "p" .close [] (by decide)

/-- C4, corrected: the claim that the query loop terminates after a spawn
failure of the external-process backend fails: the invocation resolves with
closedDuringQuery false, so the loop goes on to emit a session-update
record and block on the next wait instead of exiting.  Concretely, after
the spawn-failure invocation the trace continues with an output and a wait
and contains no exit event. -/
theorem c4_counterexample :
    runLoop (some "s1") none "p"
        [⟨(openCodeRun (some "s1") (.spawnError "binary not found")).2, .message "next"⟩] =
      [.invoke "p" (some "s1") none,
       .output { status := "success", result := none, newSessionId := some "s1" },
       .wait (.message "next")] ∧
    Event.exited ∉ runLoop (some "s1") none "p"
        [⟨(openCodeRun (some "s1") (.spawnError "binary not found")).2, .message "next"⟩] := by
  decide

/-- C4, amended: when spawning the external-process backend fails, the
invocation writes exactly one outbound record, with status error, null
result and the spawn error message as error text, and resolves normally
with closedDuringQuery false — it never raises, so the orchestrator does
not crash; the loop then continues to the session-update record and the
next wait on the channel rather than exiting. -/
theorem c4_spawn_failure_record (sessionId : Option String) (msg : String)
    (s r : Option String) (p : String) (w : WaitResult) (rest : List Round) :
    (openCodeRun sessionId (.spawnError msg)).1 =
      [{ status := "error", result := none, error := some msg }] ∧
    (openCodeRun sessionId (.spawnError msg)).2.closedDuringQuery = false ∧
    ∃ tail,
      runLoop s r p (⟨(openCodeRun sessionId (.spawnError msg)).2, w⟩ :: rest) =
        .invoke p s r :: .output (sessionUpdate s) :: .wait w :: tail := by
  refine ⟨rfl, rfl, ?_⟩
  cases w with
  | message t =>
      exact ⟨runLoop s r t rest, by simp [runLoop, openCodeRun, updSession, updResume]⟩
  | close =>
      exact ⟨[.exited], by simp [runLoop, openCodeRun, updSession, updResume]⟩

/-- C6, confirmed: at process start, main unlinks any stale close sentinel
left by a previous container lifetime before the first wait on the channel,
so after startup the sentinel flag is clear: the non-blocking sentinel
check used by the streaming backend reports false, and a completed first
wait on any later inbox contents with that cleared sentinel flag never
returns the terminate signal. -/
theorem c6_stale_sentinel_cleared (fs : Fs) (inbox2 : List String) :
    shouldClose (clearStaleSentinel fs) = false ∧
    ∀ res fs2,
      waitOnce { sentinel := (clearStaleSentinel fs).sentinel, inbox := inbox2 }
        = some (res, fs2) → res ≠ .close := by
  refine ⟨rfl, ?_⟩
  intro res fs2 hw
  cases inbox2 with
  | nil => simp [waitOnce, clearStaleSentinel] at hw
  | cons t rest =>
      simp [waitOnce, clearStaleSentinel] at hw
      rw [← hw.1]
      intro hcontra
      cases hcontra

/-- Witness for C6 at a startup state with a stale sentinel and one later
message. -/
theorem c6_stale_sentinel_cleared_witness :
    shouldClose (clearStaleSentinel { sentinel := true, inbox := [] }) = false ∧
    (WaitResult.message "m" : WaitResult) ≠ .close :=
  ⟨(c6_stale_sentinel_cleared { sentinel := true, inbox := [] } ["m"]).1,
   (c6_stale_sentinel_cleared { sentinel := true, inbox := [] } ["m"]).2
     (.message "m") { sentinel := false, inbox := [] } (by decide)⟩

/-- Unfolding of invokeArgs over one round of the query loop. -/
theorem invokeArgs_runLoop_cons (s r : Option String) (p : String)
    (round : Round) (rest : List Round) :
    invokeArgs (runLoop s r p (round :: rest)) =
      (p, s, r) ::
        (if round.qr.closedDuringQuery then []
         else
           match round.w with
           | .close => []
           | .message t =>
               invokeArgs (runLoop (updSession s round.qr) (updResume r round.qr) t rest)) := by
  cases hc : round.qr.closedDuringQuery with
  | true => simp [runLoop, hc, invokeArgs]
  | false =>
      cases hw : round.w with
      | close => simp [runLoop, hc, hw, invokeArgs]
      | message t => simp [runLoop, hc, hw, invokeArgs]

/-- A round whose invocation consumed the sentinel contributes the only
invocation of the remaining trace. -/
theorem invokeArgs_runLoop_cons_closed (s r : Option String) (p : String)
    (round : Round) (rest : List Round)
    (hc : round.qr.closedDuringQuery = true) :
    invokeArgs (runLoop s r p (round :: rest)) = [(p, s, r)] := by
  simp [runLoop, hc, invokeArgs]

/-- A round whose wait observed the terminate signal contributes the last
invocation of the trace. -/
theorem invokeArgs_runLoop_cons_close (s r : Option String) (p : String)
    (round : Round) (rest : List Round)
    (hc : round.qr.closedDuringQuery = false) (hw : round.w = .close) :
    invokeArgs (runLoop s r p (round :: rest)) = [(p, s, r)] := by
  simp [runLoop, hc, hw, invokeArgs]

/-- A round whose wait yielded a message continues the trace with the
updated continuity state and the received message as the next prompt. -/
theorem invokeArgs_runLoop_cons_msg (s r : Option String) (p : String)
    (round : Round) (rest : List Round) (t : String)
    (hc : round.qr.closedDuringQuery = false) (hw : round.w = .message t) :
    invokeArgs (runLoop s r p (round :: rest)) =
      (p, s, r) ::
        invokeArgs (runLoop (updSession s round.qr) (updResume r round.qr) t rest) := by
  simp [runLoop, hc, hw, invokeArgs]

/-- The first driver invocation of the query loop receives exactly the
prompt, session id and resume marker the loop was entered with. -/
theorem invokeArgs_runLoop_head (s r : Option String) (p : String)
    (rounds : List Round) (x : String × Option String × Option String)
    (hx : (invokeArgs (runLoop s r p rounds)).get? 0 = some x) :
    x = (p, s, r) := by
  cases rounds with
  | nil => simp [runLoop, invokeArgs] at hx
  | cons round rest =>
      rw [invokeArgs_runLoop_cons] at hx
      simp at hx
      exact hx.symm

/-- C5, corrected: the claim that the next invocation adopts the returned
newSessionId whenever that field is present fails on the truthiness check
of the source: a present but empty newSessionId is falsy, so the session id
argument stays unchanged.  Concretely, after an invocation returning
newSessionId some "" the next invocation is still called with the previous
session id. -/
theorem c5_counterexample :
    invokeArgs (runLoop (some "old") none "p"
        [⟨{ newSessionId := some "", closedDuringQuery := false }, .message "m2"⟩,
         ⟨{ closedDuringQuery := false }, .close⟩]) =
      [("p", some "old", none), ("m2", some "old", none)] ∧
    (some "" : Option String) ≠ some "old" := by decide

/-- C5, amended: for every pair of consecutive driver invocations of the
query loop, the sessionId argument of the later invocation equals the
newSessionId returned by the earlier invocation when that field is present
and non-empty, and otherwise equals the sessionId argument of the earlier
invocation unchanged — which is exactly updSession applied to the earlier
argument and the earlier round result. -/
theorem c5_session_roundtrip (rounds : List Round) :
    ∀ (s r : Option String) (p : String) (i : Nat)
      (argsEarlier argsLater : String × Option String × Option String)
      (roundEarlier : Round),
      rounds.get? i = some roundEarlier →
      (invokeArgs (runLoop s r p rounds)).get? i = some argsEarlier →
      (invokeArgs (runLoop s r p rounds)).get? (i + 1) = some argsLater →
      argsLater.2.1 = updSession argsEarlier.2.1 roundEarlier.qr := by
  induction rounds with
  | nil =>
      intro s r p i argsEarlier argsLater roundEarlier hr h1 h2
      simp [runLoop, invokeArgs] at h1
  | cons round rest ih =>
      intro s r p i argsEarlier argsLater roundEarlier hr h1 h2
      cases hc : round.qr.closedDuringQuery with
      | true =>
          rw [invokeArgs_runLoop_cons_closed s r p round rest hc] at h2
          simp at h2
      | false =>
          cases hw : round.w with
          | close =>
              rw [invokeArgs_runLoop_cons_close s r p round rest hc hw] at h2
              simp at h2
          | message t =>
              rw [invokeArgs_runLoop_cons_msg s r p round rest t hc hw] at h1 h2
              cases i with
              | zero =>
                  rw [List.get?_cons_zero] at h1 hr
                  injection h1 with h1
                  injection hr with hr
                  subst h1
                  subst hr
                  rw [List.get?_cons_succ] at h2
                  have hlater :=
                    invokeArgs_runLoop_head (updSession s round.qr)
                      (updResume r round.qr) t rest argsLater h2
                  rw [hlater]
              | succ j =>
                  rw [List.get?_cons_succ] at h1 h2
                  rw [List.get?_cons_succ] at hr
                  exact ih (updSession s round.qr) (updResume r round.qr) t j
                    argsEarlier argsLater roundEarlier hr h1 h2

/-- Witness for C5 at a concrete two-round script where the first
invocation returns a fresh non-empty session id. -/
theorem c5_session_roundtrip_witness :
    (("m", some "s2", none) : String × Option String × Option String).2.1 =
      updSession
        ((("p", some "s1", none) : String × Option String × Option String)).2.1
        ({ newSessionId := some "s2", closedDuringQuery := false } : QueryResult) :=
  c5_session_roundtrip
    [⟨{ newSessionId := some "s2", closedDuringQuery := false }, .message "m"⟩,
     ⟨{ closedDuringQuery := false }, .close⟩]
    (some "s1") none "p" 0 ("p", some "s1", none) ("m", some "s2", none)
    ⟨{ newSessionId := some "s2", closedDuringQuery := false }, .message "m"⟩
    (by decide) (by decide) (by decide)

/-- The stream invariant: the yielded messages followed by the queued ones
are exactly the pushed messages, in push order. -/
theorem foldl_streamStep_inv (ops : List StreamOp) :
    ∀ st : StreamState, st.yielded ++ st.queue = st.pushed →
      (ops.foldl streamStep st).yielded ++ (ops.foldl streamStep st).queue
        = (ops.foldl streamStep st).pushed := by
  induction ops with
  | nil => intro st h; simpa using h
  | cons op ops ih =>
      intro st h
      rw [List.foldl_cons]
      apply ih
      cases op with
      | push t => simp [streamStep, ← h]
      | close => simpa [streamStep] using h
      | consume =>
          cases hq : st.queue with
          | nil =>
              rw [hq] at h
              simp at h
              simp [streamStep, hq, h]
          | cons a rest => simp [streamStep, hq, ← h, hq]

/-- C9, confirmed: the MessageStream is a single-producer single-consumer
FIFO.  For every interleaving of pushes, stream end and consumer steps, the
sequence yielded by the async iterator followed by the still-queued
messages equals the sequence of pushed messages: every yielded message was
pushed, each pushed message is yielded at most once, and yields happen in
push order.  Once the consumer has drained the queue, the yielded sequence
is exactly the pushed sequence, so after end() the iterator hands out every
message pushed before the stream ended and then terminates. -/
theorem c9_message_stream_fifo (ops : List StreamOp) :
    (runStream ops).yielded ++ (runStream ops).queue = (runStream ops).pushed ∧
    ((runStream ops).queue = [] → (runStream ops).yielded = (runStream ops).pushed) := by
  have hinv : (runStream ops).yielded ++ (runStream ops).queue = (runStream ops).pushed :=
    foldl_streamStep_inv ops streamInit rfl
  refine ⟨hinv, fun hq => ?_⟩
  simpa [hq] using hinv

/-- Witness for C9 at a concrete interleaving: two pushes, stream end, two
consumer steps. -/
theorem c9_message_stream_fifo_witness :
    (runStream [.push "a", .push "b", .close, .consume, .consume]).yielded =
      (runStream [.push "a", .push "b", .close, .consume, .consume]).pushed :=
  (c9_message_stream_fifo [.push "a", .push "b", .close, .consume, .consume]).2 (by decide)

/-- Witness for C10 at a scheduled-task input with one pending message. -/
theorem c10_scheduled_banner_prepend_witness :
    buildInitialPrompt
        { prompt := "hi", groupFolder := "g", chatJid := "j", isMain := false,
          isScheduledTask := some true }
        ["m"]
      = String.intercalate "\n" [scheduledBanner ++ "\n\n" ++ "hi", "m"] :=
  (c10_scheduled_banner_prepend
    { prompt := "hi", groupFolder := "g", chatJid := "j", isMain := false,
      isScheduledTask := some true }
    ["m"]).1 rfl
